import Mathlib

/-!
Verification development for the WebSocket chess game server
(src/server/game-server.js).  The server keeps a map from game ids to
game rooms; each live connection carries a mutable client record.  The
message handlers below are shallow embeddings of the corresponding
branches of the socket "message" listener, and removeClientFromGame
embeds the "close" listener.  Sockets are identified by the numeric
client id (one socket per connection); outbound traffic is modelled as
a list of (recipient id, payload) pairs.
-/

namespace ChessServer

/-- The player colors (FigureColor in the source). -/
inductive FigureColor
  | white
  | black
deriving DecidableEq, Repr

/-- Room status: waiting, active or ended. -/
inductive GameStatus
  | waiting
  | active
  | ended
deriving DecidableEq, Repr

/-- A move descriptor as submitted by a client.  The server only reads the
FEN field (and checks the record for truthiness, which the typed embedding
guarantees); from and to squares are carried opaquely.  An absent FEN field
is none; the JavaScript falsiness of the empty string is modelled
explicitly in the handler. -/
structure MoveData where
  fromSq : Nat × Nat
  toSq : Nat × Nat
  FEN : Option String
deriving DecidableEq, Repr

/-- A terminal game result (GameResult in the source); stored verbatim. -/
structure GameResult where
  resultType : Option String
  winColor : Option FigureColor
deriving DecidableEq, Repr

/-- The per-connection client record.  The id doubles as the socket
identifier. -/
structure Client where
  id : Nat
  name : Option String
  color : Option FigureColor
  gameId : Option String
  viewer : Option Bool
deriving DecidableEq, Repr

/-- One entry of the players summary built by buildPlayers. -/
structure PlayerInfo where
  color : FigureColor
  name : Option String
  connected : Bool
deriving DecidableEq, Repr

/-- A game room.  Seats hold copies of the joining client record, exactly as
the spread operator produces them in the source. -/
structure Game where
  id : String
  fen : String
  status : GameStatus
  white : Option Client
  black : Option Client
  watchers : List Nat
  moves : List MoveData
  result : Option GameResult
deriving DecidableEq, Repr

/-- Outbound event payloads.  Fields that JSON serialization drops when
undefined are Options, with none meaning absent. -/
inductive Payload
  | pong
  | error (message : String)
  | session (gameId : String) (color : Option FigureColor) (viewer : Option Bool)
      (fen : String) (status : GameStatus) (players : List PlayerInfo)
      (result : Option GameResult)
  | playerJoined (gameId : String) (players : List PlayerInfo) (status : GameStatus)
  | playerLeft (gameId : String) (players : List PlayerInfo) (status : GameStatus)
  | moveEvent (gameId : String) (move : MoveData) (fen : String)
      (nextToMove : FigureColor) (byColor : FigureColor)
  | ended (gameId : String) (result : Option GameResult) (fen : String)
deriving DecidableEq, Repr

/-- Inbound client messages after JSON parsing and shape classification.
A queue message is listed separately because the spec mentions it; the
server source has no branch for it, so it reaches the same fallback as any
unrecognized type. -/
inductive ClientMsg
  | ping
  | create (gameId : Option String) (preferredColor : Option String)
      (playerName : Option String)
  | join (gameId : String) (preferredColor : Option String)
      (playerName : Option String)
  | endGame (result : Option GameResult)
  | move (gameId : String) (move : MoveData)
  | queue (playerName : Option String)
  | unknownMsg
deriving DecidableEq, Repr

/-- The games map, in insertion order, as a JavaScript Map of rooms. -/
abbrev GamesMap := List (String × Game)

/-- Result of processing one inbound message: the updated games map, the
updated client record of the sender, and the outbound sends in order. -/
structure StepResult where
  games : GamesMap
  client : Client
  sent : List (Nat × Payload)
deriving DecidableEq, Repr

/-- START_FEN constant from the source. -/
def START_FEN : String := "rnbqkbnr/pppppppp/8/8/8/8/PPPPPPPP/RNBQKBNR w KQkq - 0 1"

/-- The JavaScript split on a single space, on character lists: every space
character starts a new field, adjacent spaces yield empty fields, and the
empty input yields one empty field. -/
def splitOnSpaceList : List Char → List (List Char)
  | [] => [[]]
  | c :: rest =>
      match splitOnSpaceList rest with
      | [] => [[]]
      | f :: fs => if c = ' ' then [] :: f :: fs else (c :: f) :: fs

/-- The JavaScript fen.split of the source applied to a space separator. -/
def splitOnSpace (s : String) : List String :=
  (splitOnSpaceList s.data).map String.mk

/-- getActiveColorFromFEN from the source: the second space-separated field
decides the side to move, defaulting to white. -/
def getActiveColorFromFEN (fen : String) : FigureColor :=
  if (splitOnSpace fen)[1]? = some "b" then FigureColor.black else FigureColor.white

/-- normalizeColor from the source: black exactly on the string "black". -/
def normalizeColor (preferred : Option String) : FigureColor :=
  if preferred = some "black" then FigureColor.black else FigureColor.white

/-- Map lookup (games.get). -/
def findGame : GamesMap → String → Option Game
  | [], _ => none
  | p :: rest, gid => if p.1 = gid then some p.2 else findGame rest gid

/-- Map update (games.set, and in-place mutation of a room fetched under a
key): replaces the binding when the key is present, appends otherwise. -/
def setGame : GamesMap → String → Game → GamesMap
  | [], gid, g => [(gid, g)]
  | p :: rest, gid, g => if p.1 = gid then (gid, g) :: rest else p :: setGame rest gid g

/-- Seat projection indexed by color. -/
def seatOf (g : Game) : FigureColor → Option Client
  | FigureColor.white => g.white
  | FigureColor.black => g.black

/-- Seat replacement indexed by color. -/
def setSeat (g : Game) : FigureColor → Option Client → Game
  | FigureColor.white, cl => { g with white := cl }
  | FigureColor.black, cl => { g with black := cl }

/-- buildPlayers from the source. -/
def buildPlayers (g : Game) : List PlayerInfo :=
  [⟨FigureColor.white, Option.bind g.white Client.name, g.white.isSome⟩,
   ⟨FigureColor.black, Option.bind g.black Client.name, g.black.isSome⟩]

/-- The sockets a broadcast reaches: white seat, black seat, watchers, in
that order, skipping the excluded socket. -/
def recipients (g : Game) (exclude : Option Nat) : List Nat :=
  (((g.white.map Client.id).toList ++ (g.black.map Client.id).toList) ++ g.watchers).filter
    (fun s => some s != exclude)

/-- broadcast from the source: the payload sent to every recipient. -/
def sendAll (g : Game) (p : Payload) (exclude : Option Nat) : List (Nat × Payload) :=
  (recipients g exclude).map (fun s => (s, p))

/-- The id a create message settles on: the requested gameId when truthy,
else the fresh random id produced by createGameId (passed in as freshId). -/
def createdId (gidOpt : Option String) (freshId : String) : String :=
  match gidOpt with
  | some g => if g = "" then freshId else g
  | none => freshId

/-- The create branch of the message listener continued: checks the id for
a collision, builds the room at the start position seating the creator,
updates the client record and acknowledges with a session event. -/
def handleCreate (games : GamesMap) (client : Client) (gidOpt : Option String)
    (pref : Option String) (pname : Option String) (freshId : String) : StepResult :=
  let color := normalizeColor pref
  let gameId : String := createdId gidOpt freshId
  if (findGame games gameId).isSome then
    ⟨games, client, [(client.id, Payload.error "Game already exists")]⟩
  else
    let seat : Client := { client with color := some color, name := pname }
    let base : Game :=
      ⟨gameId, START_FEN, GameStatus.waiting, none, none, [], [], none⟩
    let game := setSeat base color (some seat)
    let client2 : Client :=
      { client with color := some color, gameId := some gameId, name := pname }
    ⟨setGame games gameId game, client2,
      [(client.id,
        Payload.session gameId (some color) none game.fen game.status
          (buildPlayers game) none)]⟩

/-- The seat choice of the join branch: the normalized preferred color when
that seat is free, else white if free, else black if free, else none. -/
def joinAssignedColor (game : Game) (preferredColor : FigureColor) : Option FigureColor :=
  if (seatOf game preferredColor).isNone then some preferredColor
  else if game.white.isNone then some FigureColor.white
  else if game.black.isNone then some FigureColor.black
  else none

/-- The mutation the join branch performs on the room it found, together
with the mutated client record of the joiner. -/
def joinResultGame (game : Game) (client : Client) (pref : Option String)
    (pname : Option String) : Game × Client :=
  let preferredColor := normalizeColor pref
  let client1 : Client := { client with gameId := some game.id, name := pname }
  match joinAssignedColor game preferredColor with
  | some c =>
      let client2 : Client := { client1 with color := some c, viewer := some false }
      let game1 := setSeat game c (some client2)
      ({ game1 with
          status :=
            if game1.white.isSome && game1.black.isSome then GameStatus.active
            else GameStatus.waiting },
        client2)
  | none =>
      let client2 : Client := { client1 with viewer := some true }
      ({ game with
          watchers :=
            if client.id ∈ game.watchers then game.watchers
            else game.watchers ++ [client.id] },
        client2)

/-- The join branch of the message listener. -/
def handleJoin (games : GamesMap) (client : Client) (gid : String)
    (pref : Option String) (pname : Option String) : StepResult :=
  match findGame games gid with
  | none => ⟨games, client, [(client.id, Payload.error "Game not found")]⟩
  | some game =>
      let gc := joinResultGame game client pref pname
      ⟨setGame games gid gc.1, gc.2,
        (client.id,
          Payload.session game.id gc.2.color gc.2.viewer gc.1.fen gc.1.status
            (buildPlayers gc.1) gc.1.result)
        :: sendAll gc.1 (Payload.playerJoined game.id (buildPlayers gc.1) gc.1.status)
            (some client.id)⟩

/-- The end branch of the message listener.  A falsy recorded gameId (absent
or empty) is rejected with the Not in a game error; a recorded gameId that
no longer resolves returns silently. -/
def handleEnd (games : GamesMap) (client : Client) (result : Option GameResult) :
    StepResult :=
  match client.gameId with
  | none => ⟨games, client, [(client.id, Payload.error "Not in a game")]⟩
  | some gid =>
      if gid = "" then ⟨games, client, [(client.id, Payload.error "Not in a game")]⟩
      else
        match findGame games gid with
        | none => ⟨games, client, []⟩
        | some game =>
            let game2 : Game := { game with status := GameStatus.ended, result := result }
            ⟨setGame games gid game2, client,
              sendAll game2 (Payload.ended game.id result game2.fen) none⟩

/-- The move branch of the message listener.  Note that the source looks
the room up by the gameId recorded on the client, not by the gameId carried
in the message, and that the turn check compares the recorded client color
with the side to move parsed from the current position. -/
def handleMove (games : GamesMap) (client : Client) (_mgid : String) (mv : MoveData) :
    StepResult :=
  match client.gameId, client.color with
  | some gid, some c =>
      if gid = "" then
        ⟨games, client, [(client.id, Payload.error "Join a game first")]⟩
      else
        match findGame games gid with
        | none => ⟨games, client, [(client.id, Payload.error "Game not found")]⟩
        | some game =>
            if getActiveColorFromFEN game.fen ≠ c then
              ⟨games, client, [(client.id, Payload.error "Not your turn")]⟩
            else
              match mv.FEN with
              | none =>
                  ⟨games, client, [(client.id, Payload.error "Move is missing FEN")]⟩
              | some f =>
                  if f = "" then
                    ⟨games, client, [(client.id, Payload.error "Move is missing FEN")]⟩
                  else
                    let game2 : Game := { game with fen := f, moves := game.moves ++ [mv] }
                    ⟨setGame games gid game2, client,
                      sendAll game2
                        (Payload.moveEvent game.id mv game2.fen
                          (getActiveColorFromFEN game2.fen) c) none⟩
  | _, _ => ⟨games, client, [(client.id, Payload.error "Join a game first")]⟩

/-- removeClientFromGame from the source, triggered by the close listener:
vacates the seat whose stored id matches the closing client, else removes
the socket from the watchers, then recomputes the status from seat
occupancy and broadcasts player_left. -/
def removeClientFromGame (games : GamesMap) (client : Client) :
    GamesMap × List (Nat × Payload) :=
  match client.gameId with
  | none => (games, [])
  | some gid =>
      if gid = "" then (games, [])
      else
        match findGame games gid with
        | none => (games, [])
        | some game =>
            let game1 : Game :=
              if game.white.map Client.id = some client.id then { game with white := none }
              else if game.black.map Client.id = some client.id then { game with black := none }
              else { game with watchers := game.watchers.erase client.id }
            let game2 : Game :=
              { game1 with
                status :=
                  if game1.white.isSome && game1.black.isSome then GameStatus.active
                  else GameStatus.waiting }
            (setGame games gid game2,
              sendAll game2 (Payload.playerLeft game.id (buildPlayers game2) game2.status) none)

/-- The full message listener dispatch: ping, create, join, end, move in
source order; every other message (the queue kind included) reaches the
Unknown message type fallback. -/
def handleMessage (games : GamesMap) (client : Client) (msg : ClientMsg)
    (freshId : String) : StepResult :=
  match msg with
  | ClientMsg.ping => ⟨games, client, [(client.id, Payload.pong)]⟩
  | ClientMsg.create gidOpt pref pname => handleCreate games client gidOpt pref pname freshId
  | ClientMsg.join gid pref pname => handleJoin games client gid pref pname
  | ClientMsg.endGame result => handleEnd games client result
  | ClientMsg.move gid mv => handleMove games client gid mv
  | ClientMsg.queue _ => ⟨games, client, [(client.id, Payload.error "Unknown message type")]⟩
  | ClientMsg.unknownMsg =>
      ⟨games, client, [(client.id, Payload.error "Unknown message type")]⟩

/-- One join operation of a join sequence: the joining client record and
the join message fields. -/
structure JoinOp where
  client : Client
  gameId : String
  preferredColor : Option String
  playerName : Option String
deriving DecidableEq, Repr

/-- Folding a sequence of join messages over the games map. -/
def applyJoins (games : GamesMap) : List JoinOp → GamesMap
  | [] => games
  | op :: rest =>
      applyJoins (handleJoin games op.client op.gameId op.preferredColor op.playerName).games
        rest

/-- The seats and status agreement the spec states for rooms: status is
active exactly when both seats are occupied. -/
def statusSeatsInv (g : Game) : Prop :=
  g.status = GameStatus.active ↔ (g.white.isSome = true ∧ g.black.isSome = true)

/-- Recognizer for join messages. -/
def isJoinMsg : ClientMsg → Bool
  | ClientMsg.join _ _ _ => true
  | _ => false

/-- Concrete white player of the two-seat example rooms: holds the white
seat of room g and records color white and room g. -/
def exWhite : Client := ⟨0, none, some FigureColor.white, some "g", none⟩

/-- Concrete black player of the two-seat example rooms. -/
def exBlack : Client := ⟨1, none, some FigureColor.black, some "g", none⟩

/-- Concrete observer connection of room g: it records the room id and the
viewer flag but holds no seat. -/
def exObserver : Client := ⟨2, none, none, some "g", some true⟩

/-- An active room g with both seats taken and white to move (the second
field of the position string is w). -/
def exActiveRoom : Game :=
  ⟨"g", "k w", GameStatus.active, some exWhite, some exBlack, [], [], none⟩

/-- An ended room g with both seats taken, one watcher and white to move. -/
def exEndedRoom : Game :=
  ⟨"g", "k w", GameStatus.ended, some exWhite, some exBlack, [2], [],
    some ⟨some "surrender", some FigureColor.black⟩⟩

/-- An ended room g with both seats taken, no watcher and white to move. -/
def exEndedRoomNoWatcher : Game :=
  ⟨"g", "k w", GameStatus.ended, some exWhite, some exBlack, [], [],
    some ⟨some "surrender", some FigureColor.black⟩⟩

/-- An active room g with both seats taken and one watcher. -/
def exWatchedRoom : Game :=
  ⟨"g", "k w", GameStatus.active, some exWhite, some exBlack, [2], [], none⟩

/-- A concrete move carrying a resulting position with black to move. -/
def exMove : MoveData := ⟨(0, 0), (1, 1), some "k b"⟩

/-- A concrete move whose FEN field is absent. -/
def exMoveNoFEN : MoveData := ⟨(0, 0), (1, 1), none⟩

/-- Connection 0 creates room a. -/
def exRoomACreate : StepResult :=
  handleMessage [] ⟨0, none, none, none, none⟩ (ClientMsg.create (some "a") none none) "z1"

/-- Connection 9 then creates room b. -/
def exTwoRooms : StepResult :=
  handleMessage exRoomACreate.games ⟨9, none, none, none, none⟩
    (ClientMsg.create (some "b") none none) "z2"

/-- Connection 0, already seated white in room a, then joins room b (taking
the black seat there, since white is occupied by connection 9). -/
def exRejoin : StepResult :=
  handleMessage exTwoRooms.games exRoomACreate.client (ClientMsg.join "b" none none) "z3"

/-- The games map after the transport of connection 0 closes at that point. -/
def exAfterClose : GamesMap := (removeClientFromGame exRejoin.games exRejoin.client).1

/-- The room reached by creating room g (connection 0, defaulting to white)
and then one join by connection 1 (which takes the black seat). -/
def exCreatedThenJoined : GamesMap :=
  applyJoins
    (handleMessage [] ⟨0, none, none, none, none⟩
      (ClientMsg.create (some "g") none none) "z").games
    [⟨⟨1, none, none, none, none⟩, "g", none, none⟩]

theorem splitOnSpaceList_eq_splitOnP (l : List Char) :
    splitOnSpaceList l = List.splitOnP (fun c => c == ' ') l := by
  induction l with
  | nil => simp [splitOnSpaceList]
  | cons c rest ih =>
    cases hrest : List.splitOnP (fun c => c == ' ') rest with
    | nil => exact absurd hrest (List.splitOnP_ne_nil _ rest)
    | cons f fs =>
      have h2 : splitOnSpaceList rest = f :: fs := by rw [ih, hrest]
      by_cases hc : c = ' ' <;>
        simp [splitOnSpaceList, h2, hrest, List.splitOnP_cons, hc]

theorem splitOnSpace_eq_split (s : String) :
    splitOnSpace s = s.split (fun c => c == ' ') := by
  rw [String.split_of_valid]
  simp [splitOnSpace, splitOnSpaceList_eq_splitOnP]

theorem findGame_setGame_self (games : GamesMap) (gid : String) (g : Game) :
    findGame (setGame games gid g) gid = some g := by
  induction games with
  | nil => simp [setGame, findGame]
  | cons p rest ih =>
    by_cases h : p.1 = gid
    · simp [setGame, findGame, h]
    · simp [setGame, findGame, h, ih]

theorem findGame_setGame_ne (games : GamesMap) (gid gid2 : String) (g : Game)
    (h : gid2 ≠ gid) :
    findGame (setGame games gid g) gid2 = findGame games gid2 := by
  induction games with
  | nil => simp [setGame, findGame, Ne.symm h]
  | cons p rest ih =>
    by_cases hp : p.1 = gid
    · simp [setGame, findGame, hp, Ne.symm h]
    · simp [setGame, findGame, hp, ih]

theorem statusSeatsInv_recompute (g : Game) :
    statusSeatsInv
      { g with
        status :=
          if g.white.isSome && g.black.isSome then GameStatus.active
          else GameStatus.waiting } := by
  simp only [statusSeatsInv]
  by_cases hb : (g.white.isSome && g.black.isSome) = true
  · simp only [hb, if_pos]
    simp only [Bool.and_eq_true] at hb
    simpa using hb
  · simp only [hb, if_neg]
    simp only [Bool.and_eq_true] at hb
    simpa using hb

theorem recompute_status_ne_ended (g : Game) :
    ({ g with
        status :=
          if g.white.isSome && g.black.isSome then GameStatus.active
          else GameStatus.waiting } : Game).status ≠ GameStatus.ended := by
  by_cases hb : (g.white.isSome && g.black.isSome) = true <;> simp [hb]

theorem statusSeatsInv_watchers (g : Game) (w : List Nat) (h : statusSeatsInv g) :
    statusSeatsInv { g with watchers := w } := by
  simpa [statusSeatsInv] using h

theorem joinResultGame_fst_inv (game : Game) (cl : Client) (pref pname : Option String)
    (hinv : statusSeatsInv game) :
    statusSeatsInv (joinResultGame game cl pref pname).1 := by
  unfold joinResultGame
  cases hac : joinAssignedColor game (normalizeColor pref) with
  | some c =>
    simp only [hac]
    exact statusSeatsInv_recompute _
  | none =>
    simp only [hac]
    exact statusSeatsInv_watchers _ _ hinv

theorem handleJoin_preserve (games : GamesMap) (cl : Client) (gid : String)
    (pref pname : Option String) (cid : String) (g : Game)
    (hg : findGame games cid = some g) (hinv : statusSeatsInv g) :
    ∃ g1, findGame (handleJoin games cl gid pref pname).games cid = some g1 ∧
      statusSeatsInv g1 := by
  cases hfind : findGame games gid with
  | none => exact ⟨g, by simp [handleJoin, hfind, hg], hinv⟩
  | some game =>
    by_cases hcid : cid = gid
    · subst hcid
      have hge : game = g := by rw [hg] at hfind; exact (Option.some.inj hfind).symm
      subst hge
      refine ⟨(joinResultGame game cl pref pname).1, ?_, ?_⟩
      · simp [handleJoin, hfind, findGame_setGame_self]
      · exact joinResultGame_fst_inv game cl pref pname hinv
    · exact ⟨g, by simp [handleJoin, hfind, findGame_setGame_ne _ _ _ _ hcid, hg], hinv⟩

theorem applyJoins_inv (joins : List JoinOp) :
    ∀ (games : GamesMap) (cid : String) (g g' : Game),
      findGame games cid = some g → statusSeatsInv g →
      findGame (applyJoins games joins) cid = some g' → statusSeatsInv g' := by
  induction joins with
  | nil =>
    intro games cid g g' hg hinv hg'
    simp only [applyJoins] at hg'
    rw [hg] at hg'
    cases hg'
    exact hinv
  | cons op rest ih =>
    intro games cid g g' hg hinv hg'
    simp only [applyJoins] at hg'
    obtain ⟨g1, hg1, hinv1⟩ :=
      handleJoin_preserve games op.client op.gameId op.preferredColor op.playerName cid g hg hinv
    exact ih _ cid g1 g' hg1 hinv1 hg'

theorem handleCreate_creates (games : GamesMap) (cl : Client)
    (gidOpt pref pname : Option String) (fresh : String)
    (hfree : findGame games (createdId gidOpt fresh) = none) :
    findGame (handleCreate games cl gidOpt pref pname fresh).games (createdId gidOpt fresh) =
      some (setSeat ⟨createdId gidOpt fresh, START_FEN, GameStatus.waiting, none, none, [], [], none⟩
        (normalizeColor pref)
        (some { cl with color := some (normalizeColor pref), name := pname })) ∧
    statusSeatsInv
      (setSeat ⟨createdId gidOpt fresh, START_FEN, GameStatus.waiting, none, none, [], [], none⟩
        (normalizeColor pref)
        (some { cl with color := some (normalizeColor pref), name := pname })) := by
  constructor
  · simp [handleCreate, hfree, findGame_setGame_self]
  · cases hc : normalizeColor pref <;> simp [setSeat, statusSeatsInv]

/-- Claim C4: starting from a create message whose fresh room id was not in
use, after any sequence of join operations the room is in active status
exactly when both of its seats are occupied. -/
theorem C4_active_iff_both_seats (games0 : GamesMap) (creator : Client)
    (gidOpt pref pname : Option String) (fresh : String) (joins : List JoinOp)
    (game : Game)
    (hfree : findGame games0 (createdId gidOpt fresh) = none)
    (hfind : findGame
        (applyJoins
          (handleMessage games0 creator (ClientMsg.create gidOpt pref pname) fresh).games
          joins)
        (createdId gidOpt fresh) = some game) :
    game.status = GameStatus.active ↔
      (game.white.isSome = true ∧ game.black.isSome = true) := by
  obtain ⟨hcr, hinv⟩ := handleCreate_creates games0 creator gidOpt pref pname fresh hfree
  exact applyJoins_inv joins _ _ _ _ hcr hinv hfind

/-- Witness for claim C4 at a concrete input: connection 0 creates room g
(seating itself at white) and connection 1 joins (taking black); the room
is then active with both seats occupied. -/
theorem C4_active_iff_both_seats_witness :
    findGame [] (createdId (some "g") "z") = none ∧
    findGame exCreatedThenJoined (createdId (some "g") "z") =
      some ⟨"g", START_FEN, GameStatus.active,
        some ⟨0, none, some FigureColor.white, none, none⟩,
        some ⟨1, none, some FigureColor.black, some "g", some false⟩, [], [], none⟩ ∧
    ((⟨"g", START_FEN, GameStatus.active,
        some ⟨0, none, some FigureColor.white, none, none⟩,
        some ⟨1, none, some FigureColor.black, some "g", some false⟩, [], [], none⟩ : Game).status =
        GameStatus.active ↔
      ((⟨"g", START_FEN, GameStatus.active,
        some ⟨0, none, some FigureColor.white, none, none⟩,
        some ⟨1, none, some FigureColor.black, some "g", some false⟩, [], [], none⟩ : Game).white.isSome = true ∧
       (⟨"g", START_FEN, GameStatus.active,
        some ⟨0, none, some FigureColor.white, none, none⟩,
        some ⟨1, none, some FigureColor.black, some "g", some false⟩, [], [], none⟩ : Game).black.isSome = true)) :=
  ⟨rfl, rfl,
    C4_active_iff_both_seats [] ⟨0, none, none, none, none⟩ (some "g") none none "z"
      [⟨⟨1, none, none, none, none⟩, "g", none, none⟩] _ rfl rfl⟩

/-- Claim C1, refuted at a concrete input: in room g the sender occupies
the white seat (the seat stores its client id 0) and white is the side to
move, yet its move carrying no resulting position is not accepted: the
room is unchanged and the sender receives a Move is missing FEN error,
which is also not the NotYourTurn error the claim promises for every
non-accepted case. -/
theorem C1_counterexample :
    exActiveRoom.white = some exWhite ∧ exWhite.id = 0 ∧
    getActiveColorFromFEN exActiveRoom.fen = FigureColor.white ∧
    exWhite.color = some FigureColor.white ∧
    handleMessage [("g", exActiveRoom)] exWhite (ClientMsg.move "g" exMoveNoFEN) "z" =
      ⟨[("g", exActiveRoom)], exWhite, [(0, Payload.error "Move is missing FEN")]⟩ :=
  ⟨rfl, rfl, rfl, rfl, rfl⟩

/-- Claim C1 (amended): for a move message from a client that records a
room id resolving to an existing room and records a color, the move is
accepted (position replaced by the submitted one, record appended, move
event broadcast to both seats and all watchers) exactly when the recorded
color (seat occupancy is not consulted) equals the side to move derived
from the current position and the move carries a nonempty FEN; NotYourTurn
is returned exactly when the recorded color differs from the side to move;
a matching color with a missing or empty FEN yields a Move is missing FEN
error; in every rejected case the games map and the client are unchanged. -/
theorem C1_move_accept_characterization (games : GamesMap) (client : Client)
    (mgid gid : String) (mv : MoveData) (fresh : String) (c : FigureColor)
    (game : Game)
    (h1 : client.gameId = some gid) (h2 : gid ≠ "") (h3 : client.color = some c)
    (h4 : findGame games gid = some game) :
    (getActiveColorFromFEN game.fen ≠ c →
      handleMessage games client (ClientMsg.move mgid mv) fresh =
        ⟨games, client, [(client.id, Payload.error "Not your turn")]⟩) ∧
    (getActiveColorFromFEN game.fen = c → mv.FEN = none →
      handleMessage games client (ClientMsg.move mgid mv) fresh =
        ⟨games, client, [(client.id, Payload.error "Move is missing FEN")]⟩) ∧
    (getActiveColorFromFEN game.fen = c → mv.FEN = some "" →
      handleMessage games client (ClientMsg.move mgid mv) fresh =
        ⟨games, client, [(client.id, Payload.error "Move is missing FEN")]⟩) ∧
    (∀ f, getActiveColorFromFEN game.fen = c → mv.FEN = some f → f ≠ "" →
      handleMessage games client (ClientMsg.move mgid mv) fresh =
        ⟨setGame games gid { game with fen := f, moves := game.moves ++ [mv] }, client,
          sendAll { game with fen := f, moves := game.moves ++ [mv] }
            (Payload.moveEvent game.id mv f (getActiveColorFromFEN f) c) none⟩) := by
  refine ⟨?_, ?_, ?_, ?_⟩
  · intro hne
    simp [handleMessage, handleMove, h1, h2, h3, h4, hne]
  · intro heq hfen
    simp [handleMessage, handleMove, h1, h2, h3, h4, heq, hfen]
  · intro heq hfen
    simp [handleMessage, handleMove, h1, h2, h3, h4, heq, hfen]
  · intro f heq hfen hf
    simp [handleMessage, handleMove, h1, h2, h3, h4, heq, hfen, hf]

/-- Witness for the amended claim C1 at a concrete input: the white seat
holder moves while white is to move with a position carried, and the move
is applied and broadcast to both seats. -/
theorem C1_move_accept_characterization_witness :
    handleMessage [("g", exActiveRoom)] exWhite (ClientMsg.move "g" exMove) "z" =
      ⟨setGame [("g", exActiveRoom)] "g"
          { exActiveRoom with fen := "k b", moves := exActiveRoom.moves ++ [exMove] },
        exWhite,
        sendAll { exActiveRoom with fen := "k b", moves := exActiveRoom.moves ++ [exMove] }
          (Payload.moveEvent exActiveRoom.id exMove "k b" (getActiveColorFromFEN "k b")
            FigureColor.white) none⟩ :=
  (C1_move_accept_characterization [("g", exActiveRoom)] exWhite "g" "g" exMove "z"
      FigureColor.white exActiveRoom rfl (by decide) rfl rfl).2.2.2
    "k b" rfl rfl (by decide)

/-- Claim C5, refuted at a concrete input: connection 2 observes room g
(it records the room id but holds neither seat), sends an end request, and
instead of a NotInRoom error the room is ended, the result stored and the
ended event broadcast to both seats and the observer. -/
theorem C5_counterexample :
    exWatchedRoom.white.map Client.id ≠ some exObserver.id ∧
    exWatchedRoom.black.map Client.id ≠ some exObserver.id ∧
    handleMessage [("g", exWatchedRoom)] exObserver
        (ClientMsg.endGame (some ⟨some "draw", none⟩)) "z" =
      ⟨[("g",
          { exWatchedRoom with
              status := GameStatus.ended
              result := some ⟨some "draw", none⟩ })], exObserver,
        [(0, Payload.ended "g" (some ⟨some "draw", none⟩) "k w"),
         (1, Payload.ended "g" (some ⟨some "draw", none⟩) "k w"),
         (2, Payload.ended "g" (some ⟨some "draw", none⟩) "k w")]⟩ :=
  ⟨by decide, by decide, rfl⟩

/-- Claim C5 (amended): an end request fails with the Not in a game error
exactly when the caller records no (or an empty) room id; every caller
recording an id that resolves to a room, whether it holds a seat or merely
observes, ends the game: the status becomes ended, the result is stored
and an ended event carrying the result and final position is broadcast to
every seat and observer. -/
theorem C5_end_room_id_check (games : GamesMap) (client : Client)
    (result : Option GameResult) (fresh : String) :
    (client.gameId = none →
      handleMessage games client (ClientMsg.endGame result) fresh =
        ⟨games, client, [(client.id, Payload.error "Not in a game")]⟩) ∧
    (client.gameId = some "" →
      handleMessage games client (ClientMsg.endGame result) fresh =
        ⟨games, client, [(client.id, Payload.error "Not in a game")]⟩) ∧
    (∀ gid game, client.gameId = some gid → gid ≠ "" → findGame games gid = some game →
      handleMessage games client (ClientMsg.endGame result) fresh =
        ⟨setGame games gid { game with status := GameStatus.ended, result := result },
          client,
          sendAll { game with status := GameStatus.ended, result := result }
            (Payload.ended game.id result game.fen) none⟩) := by
  refine ⟨?_, ?_, ?_⟩
  · intro h
    simp [handleMessage, handleEnd, h]
  · intro h
    simp [handleMessage, handleEnd, h]
  · intro gid game h1 h2 h3
    simp [handleMessage, handleEnd, h1, h2, h3]

/-- Witness for the amended claim C5 at a concrete input: the white seat
holder ends room g, the room is ended and the ended event goes to both
seats. -/
theorem C5_end_room_id_check_witness :
    handleMessage [("g", exActiveRoom)] exWhite
        (ClientMsg.endGame (some ⟨some "surrender", some FigureColor.black⟩)) "z" =
      ⟨setGame [("g", exActiveRoom)] "g"
          { exActiveRoom with
              status := GameStatus.ended
              result := some ⟨some "surrender", some FigureColor.black⟩ },
        exWhite,
        sendAll
          { exActiveRoom with
              status := GameStatus.ended
              result := some ⟨some "surrender", some FigureColor.black⟩ }
          (Payload.ended exActiveRoom.id
            (some ⟨some "surrender", some FigureColor.black⟩) exActiveRoom.fen) none⟩ :=
  (C5_end_room_id_check [("g", exActiveRoom)] exWhite
      (some ⟨some "surrender", some FigureColor.black⟩) "z").2.2
    "g" exActiveRoom rfl (by decide) rfl

/-- Claim C6, refuted at a concrete input: connection 0 creates room a
(occupying its white seat), later joins room b (occupying the black seat
there), and then its transport closes.  Only room b, the room its record
points at, is cleaned: room a still carries an occupied white seat whose
stored client id is 0, a closed connection. -/
theorem C6_counterexample :
    exRejoin.client.id = 0 ∧
    findGame exAfterClose "b" =
      some ⟨"b", START_FEN, GameStatus.waiting,
        some ⟨9, none, some FigureColor.white, none, none⟩, none, [], [], none⟩ ∧
    findGame exAfterClose "a" =
      some ⟨"a", START_FEN, GameStatus.waiting,
        some ⟨0, none, some FigureColor.white, none, none⟩, none, [], [], none⟩ :=
  ⟨rfl, rfl, rfl⟩

/-- Claim C6 (amended): on close only the room recorded in the closing
client record is cleaned: rooms under any other id keep their bindings
verbatim (stale seats included); in the recorded room the seat whose
stored id equals the closing client id is vacated (white checked before
black), and when neither seat matches the connection is removed from the
watchers with both seats untouched.  A client recording no room id changes
nothing. -/
theorem C6_close_cleans_recorded_room_only (games : GamesMap) (client : Client) :
    (client.gameId = none → removeClientFromGame games client = (games, [])) ∧
    (∀ gid gid2, client.gameId = some gid → gid ≠ "" → gid2 ≠ gid →
      findGame (removeClientFromGame games client).1 gid2 = findGame games gid2) ∧
    (∀ gid game game', client.gameId = some gid → gid ≠ "" →
      findGame games gid = some game →
      game.white.map Client.id = some client.id →
      findGame (removeClientFromGame games client).1 gid = some game' →
      game'.white = none) ∧
    (∀ gid game game', client.gameId = some gid → gid ≠ "" →
      findGame games gid = some game →
      game.white.map Client.id ≠ some client.id →
      game.black.map Client.id = some client.id →
      findGame (removeClientFromGame games client).1 gid = some game' →
      game'.black = none) ∧
    (∀ gid game game', client.gameId = some gid → gid ≠ "" →
      findGame games gid = some game →
      game.white.map Client.id ≠ some client.id →
      game.black.map Client.id ≠ some client.id →
      findGame (removeClientFromGame games client).1 gid = some game' →
      game'.watchers = game.watchers.erase client.id ∧
      game'.white = game.white ∧ game'.black = game.black) := by
  refine ⟨?_, ?_, ?_, ?_, ?_⟩
  · intro h
    simp [removeClientFromGame, h]
  · intro gid gid2 h1 h2 hne
    cases hf : findGame games gid with
    | none => simp [removeClientFromGame, h1, h2, hf]
    | some g =>
      simp [removeClientFromGame, h1, h2, hf, findGame_setGame_ne _ _ _ _ hne]
  · intro gid game game' h1 h2 hfind hw hg'
    simp only [removeClientFromGame, h1, if_neg h2, hfind, findGame_setGame_self] at hg'
    injection hg' with h
    rw [← h]
    simp [hw]
  · intro gid game game' h1 h2 hfind hw hb hg'
    simp only [removeClientFromGame, h1, if_neg h2, hfind, findGame_setGame_self] at hg'
    injection hg' with h
    rw [← h]
    simp [hw, hb]
  · intro gid game game' h1 h2 hfind hw hb hg'
    simp only [removeClientFromGame, h1, if_neg h2, hfind, findGame_setGame_self] at hg'
    injection hg' with h
    rw [← h]
    simp [hw, hb]

/-- Witness for the amended claim C6 at a concrete input: after connection
0 (seated black in room b, stale seat in room a) closes, room a keeps its
binding unchanged and in room b the black seat is vacated. -/
theorem C6_close_cleans_recorded_room_only_witness :
    findGame (removeClientFromGame exRejoin.games exRejoin.client).1 "a" =
      findGame exRejoin.games "a" ∧
    (⟨"b", START_FEN, GameStatus.waiting,
      some ⟨9, none, some FigureColor.white, none, none⟩, none, [], [], none⟩ : Game).black =
      none :=
  ⟨(C6_close_cleans_recorded_room_only exRejoin.games exRejoin.client).2.1 "b" "a" rfl
      (by decide) (by decide),
    (C6_close_cleans_recorded_room_only exRejoin.games exRejoin.client).2.2.2.1 "b"
      (⟨"b", START_FEN, GameStatus.active,
        some ⟨9, none, some FigureColor.white, none, none⟩,
        some ⟨0, none, some FigureColor.black, some "b", some false⟩, [], [], none⟩ : Game)
      (⟨"b", START_FEN, GameStatus.waiting,
        some ⟨9, none, some FigureColor.white, none, none⟩, none, [], [], none⟩ : Game)
      rfl (by decide) rfl (by decide) (by decide) rfl⟩

/-- Claim C2, refuted at a concrete input: room g has ended, both seats
are still occupied and connection 2 watches; when the watcher disconnects,
removeClientFromGame recomputes the status from seat occupancy and the
room reverts from ended to active. -/
theorem C2_counterexample :
    exEndedRoom.status = GameStatus.ended ∧
    (removeClientFromGame [("g", exEndedRoom)] exObserver).1 =
      [("g", { exEndedRoom with watchers := [], status := GameStatus.active })] ∧
    GameStatus.active ≠ GameStatus.ended :=
  ⟨rfl, rfl, by decide⟩

/-- Claim C2 (amended): the ended status is absorbing under every inbound
message other than join (create, end, move, ping and unrecognized messages
never change an ended room back), but a leave or disconnect handled by
removeClientFromGame recomputes the status of the recorded room from seat
occupancy, so the resulting status is never ended and an ended room
reverts to active or waiting. -/
theorem C2_ended_absorbing_except_membership :
    (∀ (games : GamesMap) (client : Client) (msg : ClientMsg) (fresh gid : String)
      (game game' : Game),
      isJoinMsg msg = false → findGame games gid = some game →
      game.status = GameStatus.ended →
      findGame (handleMessage games client msg fresh).games gid = some game' →
      game'.status = GameStatus.ended) ∧
    (∀ (games : GamesMap) (client : Client) (gid : String) (game game' : Game),
      client.gameId = some gid → gid ≠ "" → findGame games gid = some game →
      findGame (removeClientFromGame games client).1 gid = some game' →
      game'.status ≠ GameStatus.ended) := by
  constructor
  · intro games client msg fresh gid game game' hnj hfind hended hg'
    cases msg with
    | ping =>
      simp only [handleMessage] at hg'
      rw [hfind] at hg'
      injection hg' with h
      rw [← h]
      exact hended
    | create gidOpt pref pname =>
      by_cases hex : (findGame games (createdId gidOpt fresh)).isSome
      · simp only [handleMessage, handleCreate, if_pos hex] at hg'
        rw [hfind] at hg'
        injection hg' with h
        rw [← h]
        exact hended
      · have hnone : findGame games (createdId gidOpt fresh) = none :=
          Option.not_isSome_iff_eq_none.mp hex
        have hne : gid ≠ createdId gidOpt fresh := by
          intro he
          rw [← he, hfind] at hnone
          cases hnone
        simp only [handleMessage, handleCreate, if_neg hex] at hg'
        rw [findGame_setGame_ne _ _ _ _ hne, hfind] at hg'
        injection hg' with h
        rw [← h]
        exact hended
    | join jgid pref pname => simp [isJoinMsg] at hnj
    | endGame result =>
      cases hcg : client.gameId with
      | none =>
        simp only [handleMessage, handleEnd, hcg] at hg'
        rw [hfind] at hg'
        injection hg' with h
        rw [← h]
        exact hended
      | some gid2 =>
        by_cases hz : gid2 = ""
        · simp only [handleMessage, handleEnd, hcg, if_pos hz] at hg'
          rw [hfind] at hg'
          injection hg' with h
          rw [← h]
          exact hended
        · cases hf2 : findGame games gid2 with
          | none =>
            simp only [handleMessage, handleEnd, hcg, if_neg hz, hf2] at hg'
            rw [hfind] at hg'
            injection hg' with h
            rw [← h]
            exact hended
          | some game2 =>
            simp only [handleMessage, handleEnd, hcg, if_neg hz, hf2] at hg'
            by_cases he : gid = gid2
            · subst he
              rw [findGame_setGame_self] at hg'
              injection hg' with h
              rw [← h]
            · rw [findGame_setGame_ne _ _ _ _ he, hfind] at hg'
              injection hg' with h
              rw [← h]
              exact hended
    | move mgid mv =>
      cases hcg : client.gameId with
      | none =>
        simp only [handleMessage, handleMove, hcg] at hg'
        rw [hfind] at hg'
        injection hg' with h
        rw [← h]
        exact hended
      | some gid2 =>
        cases hcc : client.color with
        | none =>
          simp only [handleMessage, handleMove, hcg, hcc] at hg'
          rw [hfind] at hg'
          injection hg' with h
          rw [← h]
          exact hended
        | some c =>
          by_cases hz : gid2 = ""
          · simp only [handleMessage, handleMove, hcg, hcc, if_pos hz] at hg'
            rw [hfind] at hg'
            injection hg' with h
            rw [← h]
            exact hended
          · cases hf2 : findGame games gid2 with
            | none =>
              simp only [handleMessage, handleMove, hcg, hcc, if_neg hz, hf2] at hg'
              rw [hfind] at hg'
              injection hg' with h
              rw [← h]
              exact hended
            | some game2 =>
              by_cases hturn : getActiveColorFromFEN game2.fen ≠ c
              · simp only [handleMessage, handleMove, hcg, hcc, if_neg hz, hf2,
                  if_pos hturn] at hg'
                rw [hfind] at hg'
                injection hg' with h
                rw [← h]
                exact hended
              · cases hfen : mv.FEN with
                | none =>
                  simp only [handleMessage, handleMove, hcg, hcc, if_neg hz, hf2,
                    if_neg hturn, hfen] at hg'
                  rw [hfind] at hg'
                  injection hg' with h
                  rw [← h]
                  exact hended
                | some f =>
                  by_cases hf : f = ""
                  · simp only [handleMessage, handleMove, hcg, hcc, if_neg hz, hf2,
                      if_neg hturn, hfen, if_pos hf] at hg'
                    rw [hfind] at hg'
                    injection hg' with h
                    rw [← h]
                    exact hended
                  · simp only [handleMessage, handleMove, hcg, hcc, if_neg hz, hf2,
                      if_neg hturn, hfen, if_neg hf] at hg'
                    by_cases he : gid = gid2
                    · subst he
                      rw [findGame_setGame_self] at hg'
                      injection hg' with h
                      rw [← h]
                      have hge : game2 = game := by
                        rw [hfind] at hf2
                        exact (Option.some.inj hf2).symm
                      simpa [hge] using hended
                    · rw [findGame_setGame_ne _ _ _ _ he, hfind] at hg'
                      injection hg' with h
                      rw [← h]
                      exact hended
    | queue pname =>
      simp only [handleMessage] at hg'
      rw [hfind] at hg'
      injection hg' with h
      rw [← h]
      exact hended
    | unknownMsg =>
      simp only [handleMessage] at hg'
      rw [hfind] at hg'
      injection hg' with h
      rw [← h]
      exact hended
  · intro games client gid game game' h1 h2 hfind hg'
    simp only [removeClientFromGame, h1, if_neg h2, hfind, findGame_setGame_self] at hg'
    injection hg' with h
    rw [← h]
    exact recompute_status_ne_ended _

/-- Witness for the amended claim C2 at concrete inputs: a move on the
ended room g leaves its status ended, while the disconnect of its watcher
makes the recomputed status not ended. -/
theorem C2_ended_absorbing_except_membership_witness :
    ({ exEndedRoom with watchers := [], status := GameStatus.active } : Game).status ≠
      GameStatus.ended ∧
    ({ exEndedRoomNoWatcher with fen := "k b", moves := [exMove] } : Game).status =
      GameStatus.ended :=
  ⟨C2_ended_absorbing_except_membership.2 [("g", exEndedRoom)] exObserver "g" exEndedRoom
      { exEndedRoom with watchers := [], status := GameStatus.active } rfl (by decide) rfl rfl,
    C2_ended_absorbing_except_membership.1 [("g", exEndedRoomNoWatcher)] exWhite
      (ClientMsg.move "g" exMove) "z" "g" exEndedRoomNoWatcher
      { exEndedRoomNoWatcher with fen := "k b", moves := [exMove] } rfl rfl rfl rfl⟩

/-- Claim C3: the code, evaluated on an ended room.  Room g has ended, its
white seat holder submits a move while white is to move, and the move
handler, which never consults the status, applies it: the position is
replaced, the move is appended, and a move event is broadcast to both
seats.  The claim that every move on an ended room is rejected with the
position and log unchanged is thereby contradicted by the code; the spec
itself flags the missing guard as an open question. -/
theorem C3_move_applied_on_ended_room :
    exEndedRoomNoWatcher.status = GameStatus.ended ∧
    handleMessage [("g", exEndedRoomNoWatcher)] exWhite (ClientMsg.move "g" exMove) "z" =
      ⟨[("g", { exEndedRoomNoWatcher with fen := "k b", moves := [exMove] })], exWhite,
        [(0, Payload.moveEvent "g" exMove "k b" FigureColor.black FigureColor.white),
         (1, Payload.moveEvent "g" exMove "k b" FigureColor.black FigureColor.white)]⟩ ∧
    ("k b" : String) ≠ exEndedRoomNoWatcher.fen :=
  ⟨rfl, rfl, by decide⟩

/-- Claim C7, refuted at a concrete input: two clients each send a queue
message to the empty server; neither is enqueued or matched.  Each sender
only receives an Unknown message type error, the games map stays empty, so
no room exists, no matched event names a room and no colors are assigned,
contradicting the claimed pairing. -/
theorem C7_counterexample :
    handleMessage [] ⟨0, none, none, none, none⟩ (ClientMsg.queue none) "z" =
      ⟨[], ⟨0, none, none, none, none⟩, [(0, Payload.error "Unknown message type")]⟩ ∧
    handleMessage [] ⟨1, none, none, none, none⟩ (ClientMsg.queue none) "z" =
      ⟨[], ⟨1, none, none, none, none⟩, [(1, Payload.error "Unknown message type")]⟩ :=
  ⟨rfl, rfl⟩

/-- Claim C7 (amended): the server has no queue branch, so every queue
message falls through to the unknown message fallback: the sender receives
an Unknown message type error and the games map and the client record are
left unchanged; no matched event is ever produced. -/
theorem C7_queue_unknown_message (games : GamesMap) (client : Client)
    (pname : Option String) (fresh : String) :
    handleMessage games client (ClientMsg.queue pname) fresh =
      ⟨games, client, [(client.id, Payload.error "Unknown message type")]⟩ :=
  rfl

/-- Claim C8: an end message from a client whose recorded room id does not
resolve to an existing room produces no reply at all and leaves the games
map and the client record unchanged. -/
theorem C8_end_unknown_room_silent (games : GamesMap) (client : Client)
    (result : Option GameResult) (fresh : String) (gid : String)
    (h1 : client.gameId = some gid) (h2 : gid ≠ "")
    (h3 : findGame games gid = none) :
    handleMessage games client (ClientMsg.endGame result) fresh = ⟨games, client, []⟩ := by
  simp [handleMessage, handleEnd, h1, h2, h3]

/-- Witness for claim C8 at a concrete input: a client recording room g on
an empty server. -/
theorem C8_end_unknown_room_silent_witness :
    (⟨5, none, none, some "g", none⟩ : Client).gameId = some "g" ∧
    ("g" : String) ≠ "" ∧ findGame [] "g" = none ∧
    handleMessage [] ⟨5, none, none, some "g", none⟩ (ClientMsg.endGame none) "z" =
      ⟨[], ⟨5, none, none, some "g", none⟩, []⟩ :=
  ⟨rfl, by decide, rfl,
    C8_end_unknown_room_silent [] ⟨5, none, none, some "g", none⟩ none "z" "g" rfl
      (by decide) rfl⟩

/-- Claim C9: normalizeColor maps exactly the string black to the black
color and every other value, an absent field included, to white. -/
theorem C9_normalizeColor_black_iff (p : Option String) :
    (normalizeColor p = FigureColor.black ↔ p = some "black") ∧
    (normalizeColor p = FigureColor.white ↔ p ≠ some "black") := by
  unfold normalizeColor
  by_cases h : p = some "black" <;> simp [h]

/-- Claim C10: side to move derivation is total and defaults to white; the
result is black exactly when the second space-separated field of the
position string is b, any string with fewer than two fields yields white,
and the result is always one of the two colors.  Fields are stated through
the library split on the space character, which the embedded JavaScript
split provably agrees with. -/
theorem C10_side_to_move_total (fen : String) :
    (getActiveColorFromFEN fen = FigureColor.black ↔
      (fen.split (fun c => c == ' '))[1]? = some "b") ∧
    ((fen.split (fun c => c == ' ')).length ≤ 1 →
      getActiveColorFromFEN fen = FigureColor.white) ∧
    (getActiveColorFromFEN fen = FigureColor.white ∨
      getActiveColorFromFEN fen = FigureColor.black) := by
  have hsp : splitOnSpace fen = fen.split (fun c => c == ' ') := splitOnSpace_eq_split fen
  refine ⟨?_, ?_, ?_⟩
  · unfold getActiveColorFromFEN
    rw [hsp]
    by_cases h : (fen.split (fun c => c == ' '))[1]? = some "b" <;> simp [h]
  · intro hl
    have h : (fen.split (fun c => c == ' '))[1]? = none := by
      rw [List.getElem?_eq_none_iff]
      omega
    simp [getActiveColorFromFEN, hsp, h]
  · unfold getActiveColorFromFEN
    by_cases h : (splitOnSpace fen)[1]? = some "b" <;> simp [h]

/-- Witness for claim C10 at a concrete input: the empty string has a
single (empty) field, and the derivation yields white on it. -/
theorem C10_side_to_move_total_witness :
    ("".split (fun c => c == ' ')).length ≤ 1 ∧
    getActiveColorFromFEN "" = FigureColor.white := by
  have h : ("".split (fun c => c == ' ')).length ≤ 1 := by
    rw [← splitOnSpace_eq_split]
    decide
  exact ⟨h, (C10_side_to_move_total "").2.1 h⟩

end ChessServer
